import Mathlib

/-!
dps-parking: the garage panel controller (`src/ui/garage/app.js`).

A shallow embedding of the browser-side panel script.  The two module globals
(`isOpen`, `vehicles`) and the four DOM nodes the script touches are one explicit
state record; every function of the script is a function from a state to the next
state together with the list of `fetch` calls it issued, in order.

Conventions of the embedding:

* an optional JavaScript value (`undefined` / `null` / absent field) is `none`;
* `a || b` on strings is `orString`: the empty string is falsy, like `undefined`;
* `a || []` on arrays is `orArray`: every array, the empty one included, is truthy;
* the children of `#vehicle-list` are a list of elements, each recorded by its tag,
  its `className` and the markup assigned to its `innerHTML`;
* numbers of `Stats` are integers held in JavaScript Numbers; a template literal prints
  them by `Number::toString` (`numberToString`): in full decimal for safe integers, by
  the shortest digits that read back from `2 ^ 53` on, in exponential form from `10 ^ 21`;
* strings are sequences of Unicode scalar values;
* the four elements the script looks up by id exist in the page, so no handler throws.
-/

namespace DpsParking

/-! ## Data model -/

/-- One entry of the `vehicles` array: `plate` is always present, `model` and
`street` may be absent. -/
structure Vehicle where
  plate : String
  model : Option String
  street : Option String
  deriving DecidableEq, Repr

/-- The `stats` object of an `open` message. -/
structure Stats where
  used : Int
  max : Int
  isVip : Bool
  deriving DecidableEq, Repr

/-- An element below `#vehicle-list`: tag name, `className`, and the markup that was
assigned to its `innerHTML`. -/
structure Element where
  tagName : String
  className : String
  innerHTML : String
  deriving DecidableEq, Repr

/-- One call of `fetch(url, { method, headers, body })`. -/
structure Request where
  url : String
  method : String
  headers : List (String × String)
  body : String
  deriving DecidableEq, Repr

/-- The part of the document the script reads and writes: the class list of
`#parking-menu`, the text of `#parked-count` and of `#vip-status`, and the children of
`#vehicle-list`. -/
structure Dom where
  menuClassList : List String
  parkedCount : String
  vipStatus : String
  vehicleList : List Element
  deriving DecidableEq, Repr

/-- The two module globals and the document. -/
structure State where
  isOpen : Bool
  vehicles : List Vehicle
  dom : Dom
  deriving DecidableEq, Repr

/-- The `event.data` of an inbound message: the `action` tag and the two payload
fields the dispatcher reads. -/
structure MessageData where
  action : String
  vehicles : Option (List Vehicle)
  stats : Option Stats
  deriving DecidableEq, Repr

/-- What can happen to the page: a message from the host, a key press, or a click on
one of the two buttons of a row (which calls the global function with a plate). -/
inductive Event where
  | message (data : MessageData)
  | keydown (key : String)
  | requestDelivery (plate : String)
  | viewOnMap (plate : String)
  deriving DecidableEq, Repr

/-! ## JavaScript primitives used by the script -/

/-- The operator `a || b` on an optional string: `undefined` and `''` are falsy. -/
def orString (a : Option String) (b : String) : String :=
  match a with
  | none => b
  | some s => if s = "" then b else s

/-- The operator `a || []` on an optional array: only `undefined` / `null` is falsy. -/
def orArray (a : Option (List Vehicle)) : List Vehicle :=
  match a with
  | none => []
  | some vs => vs

/-! ### Numbers in a template literal -/

/-- The least shift `s`, from `s` upwards and within `fuel` steps, that brings `m / 2 ^ s`
below `2 ^ 53`: the number of low bits a 53-bit significand cannot keep. -/
def findShift (m : Nat) : Nat → Nat → Nat
  | 0, s => s
  | fuel + 1, s => if m / 2 ^ s < 2 ^ 53 then s else findShift m fuel (s + 1)

/-- The Number (IEEE double) nearest to a natural number, ties to the even significand;
a number below `2 ^ 53` is a Number itself. -/
def nearestDouble (m : Nat) : Nat :=
  if m < 2 ^ 53 then m
  else
    let shift := findShift m 1024 1
    let q := m / 2 ^ shift
    let r := m % 2 ^ shift
    let half := 2 ^ (shift - 1)
    if half < r ∨ (r = half ∧ q % 2 = 1) then (q + 1) * 2 ^ shift else q * 2 ^ shift

/-- The `k`-digit candidate for the digits of the Number `x`: of the two multiples of
`10 ^ (digits of x - k)` around `x`, one that reads back as `x`; the closer one if both do,
the one with the even digit string on a tie. -/
def shortestAt (x k : Nat) : Option Nat :=
  let p := 10 ^ ((Nat.toDigits 10 x).length - k)
  let lo := x / p * p
  let hi := lo + p
  if nearestDouble lo = x ∧ nearestDouble hi = x then
    if x - lo < hi - x then some lo
    else if hi - x < x - lo then some hi
    else if (x / p) % 2 = 0 then some lo else some hi
  else if nearestDouble lo = x then some lo
  else if nearestDouble hi = x then some hi
  else none

/-- The value written by the fewest significant digits that reads back as the Number
`x`, trying `k`, `k + 1`, … digits (`Number::toString`, step 5). -/
def searchShortest (x : Nat) : Nat → Nat → Nat
  | 0, _ => x
  | fuel + 1, k =>
    match shortestAt x k with
    | some v => v
    | none => searchShortest x fuel (k + 1)

/-- A digit string without its trailing zeros. -/
def stripTrailingZeros (digits : List Char) : List Char :=
  (digits.reverse.dropWhile (fun d => d = '0')).reverse

/-- The exponential form `d.ddde+x` of `Number::toString`, used from `10 ^ 21` on. -/
def exponentialForm (v : Nat) : String :=
  match stripTrailingZeros (Nat.toDigits 10 v) with
  | [] => ""
  | d :: rest =>
    String.mk (d :: (if rest = [] then [] else '.' :: rest)) ++ "e+" ++
      String.mk (Nat.toDigits 10 ((Nat.toDigits 10 v).length - 1))

/-- The bound `2 ^ 1024`: a number that rounds to it or beyond is `Infinity`. -/
def maxDoubleBound : Nat := 2 ^ 256 * 2 ^ 256 * 2 ^ 256 * 2 ^ 256

/-- The text of `${m}` for a non-negative integer `m` held in a Number: digits in full
below `10 ^ 21`, the exponential form from there on, `Infinity` beyond the largest Number. -/
def numberToStringNat (m : Nat) : String :=
  if m = 0 then "0"
  else if maxDoubleBound ≤ m then "Infinity"
  else if maxDoubleBound ≤ nearestDouble m then "Infinity"
  else
    let v := searchShortest (nearestDouble m) (Nat.toDigits 10 (nearestDouble m)).length 1
    if v < 10 ^ 21 then String.mk (Nat.toDigits 10 v) else exponentialForm v

/-- The text a template literal gives for a Number whose value is the integer `n`
(`Number::toString`, radix 10). -/
def numberToString (n : Int) : String :=
  match n with
  | Int.ofNat m => numberToStringNat m
  | Int.negSucc m => "-" ++ numberToStringNat (m + 1)

/-! ### `JSON.stringify` -/

/-- Lower-case hexadecimal digit of a number below sixteen. -/
def hexDigit (n : Nat) : Char :=
  if n < 10 then Char.ofNat (48 + n) else Char.ofNat (87 + n)

/-- The escape of one character inside a JSON string (`QuoteJSONString`): the quote,
the backslash, the five short control escapes, `\u00xx` for the other control
characters, every other character itself. -/
def quoteJSONChar (c : Char) : List Char :=
  if c = '"' then ['\\', '"']
  else if c = '\\' then ['\\', '\\']
  else if c.toNat = 8 then ['\\', 'b']
  else if c.toNat = 9 then ['\\', 't']
  else if c.toNat = 10 then ['\\', 'n']
  else if c.toNat = 12 then ['\\', 'f']
  else if c.toNat = 13 then ['\\', 'r']
  else if c.toNat < 32 then ['\\', 'u', '0', '0', hexDigit (c.toNat / 16), hexDigit (c.toNat % 16)]
  else [c]

/-- The JSON text of a string: `JSON.stringify(s)`. -/
def quoteJSONString (s : String) : String :=
  String.mk ('"' :: (s.data.flatMap quoteJSONChar ++ ['"']))

/-- The JSON text of the members of an object whose values are strings, comma
separated, in insertion order. -/
def stringifyMembers : List (String × String) → String
  | [] => ""
  | [(k, v)] => quoteJSONString k ++ ":" ++ quoteJSONString v
  | (k, v) :: rest => quoteJSONString k ++ ":" ++ quoteJSONString v ++ "," ++ stringifyMembers rest

/-- The text `JSON.stringify(o)` for an object `o` given by its members: `{}` for the
empty object, `{"plate":"…"}` for `{ plate: plate }`. -/
def JSONstringify (members : List (String × String)) : String :=
  "\x7b" ++ stringifyMembers members ++ "\x7d"

/-! ### Reading a request body back

The host decodes the body of a request as JSON.  The reader below is the inverse that
the statements about bodies use: it is not part of the script. -/

/-- Value of a hexadecimal digit. -/
def hexValue (c : Char) : Option Nat :=
  if 48 ≤ c.toNat ∧ c.toNat ≤ 57 then some (c.toNat - 48)
  else if 97 ≤ c.toNat ∧ c.toNat ≤ 102 then some (c.toNat - 87)
  else if 65 ≤ c.toNat ∧ c.toNat ≤ 70 then some (c.toNat - 55)
  else none

/-- Where a reader of a JSON string stands: between characters, after a backslash, or
inside a `\u` escape with some digits left to read and the value read so far. -/
inductive ReadMode where
  | plain
  | escape
  | unicode (left : Nat) (value : Nat)
  deriving DecidableEq, Repr

/-- Reads the characters of a JSON string after its opening quote up to its closing
quote; gives the string that was written and the input after the closing quote. -/
def readJSONString : ReadMode → List Char → Option (List Char × List Char)
  | _, [] => none
  | ReadMode.plain, c :: rest =>
    if c = '"' then some ([], rest)
    else if c = '\\' then readJSONString ReadMode.escape rest
    else if c.toNat < 32 then none
    else (readJSONString ReadMode.plain rest).map (fun r => (c :: r.1, r.2))
  | ReadMode.escape, c :: rest =>
    if c = 'u' then readJSONString (ReadMode.unicode 4 0) rest
    else
      let decoded : Option Char :=
        if c = '"' then some '"'
        else if c = '\\' then some '\\'
        else if c = '/' then some '/'
        else if c = 'b' then some (Char.ofNat 8)
        else if c = 't' then some (Char.ofNat 9)
        else if c = 'n' then some (Char.ofNat 10)
        else if c = 'f' then some (Char.ofNat 12)
        else if c = 'r' then some (Char.ofNat 13)
        else none
      match decoded with
      | none => none
      | some d => (readJSONString ReadMode.plain rest).map (fun r => (d :: r.1, r.2))
  | ReadMode.unicode left value, c :: rest =>
    match hexValue c with
    | none => none
    | some d =>
      if left ≤ 1 then
        (readJSONString ReadMode.plain rest).map
          (fun r => (Char.ofNat (value * 16 + d) :: r.1, r.2))
      else readJSONString (ReadMode.unicode (left - 1) (value * 16 + d)) rest

/-- Reads the text of a JSON object with exactly one member whose value is a string;
gives the member's name and value. -/
def readSingleMember (body : String) : Option (String × String) :=
  match body.data with
  | open1 :: quote1 :: rest =>
    if open1.toNat = 123 ∧ quote1 = '"' then
      match readJSONString ReadMode.plain rest with
      | some (key, colon :: quote2 :: rest2) =>
        if colon = ':' ∧ quote2 = '"' then
          match readJSONString ReadMode.plain rest2 with
          | some (value, [close]) =>
            if close.toNat = 125 then some (String.mk key, String.mk value) else none
          | _ => none
        else none
      | _ => none
    else none
  | _ => none

/-! ### Class lists -/

/-- `classList.remove(token)`. -/
def classListRemove (classes : List String) (token : String) : List String :=
  classes.filter (fun c => c ≠ token)

/-- `classList.add(token)`: a token already present is not added again. -/
def classListAdd (classes : List String) (token : String) : List String :=
  if token ∈ classes then classes else classes ++ [token]

/-! ## The script -/

/-- `GetParentResourceName()`. -/
def GetParentResourceName : String := "dps-parking"

/-- The `fetch` of the three notifiers: `POST` to
`https://${GetParentResourceName()}/<endpoint>` with the JSON content type. -/
def post (endpoint : String) (body : String) : Request :=
  { url := "https://" ++ GetParentResourceName ++ "/" ++ endpoint
    method := "POST"
    headers := [("Content-Type", "application/json")]
    body := body }

/-- The single child that `list.innerHTML = '<div class="vehicle-item"><div
class="info">No parked vehicles</div></div>'` leaves in the list. -/
def placeholderItem : Element :=
  { tagName := "div"
    className := "vehicle-item"
    innerHTML := "<div class=\"info\">No parked vehicles</div>" }

/-- The template literal of the `forEach` body as a function of the values of its
five `${…}` holes, in the order they occur. -/
def itemTemplate (plate1 modelText streetText plate2 plate3 : String) : String :=
  "\n            <div class=\"plate\">" ++ plate1 ++
  "</div>\n            <div class=\"info\">" ++ modelText ++ " - " ++ streetText ++
  "</div>\n            <div class=\"actions\">\n                <button class=\"btn btn-primary\" onclick=\"requestDelivery('" ++ plate2 ++
  "')\">Request Delivery</button>\n                <button class=\"btn btn-secondary\" onclick=\"viewOnMap('" ++ plate3 ++
  "')\">View on Map</button>\n            </div>\n        "

/-- The markup assigned to `item.innerHTML`: the template literal with
`vehicle.plate`, `vehicle.model || 'Unknown'`, `vehicle.street || 'Unknown location'`,
`vehicle.plate` and `vehicle.plate` in its holes. -/
def itemMarkup (vehicle : Vehicle) : String :=
  itemTemplate vehicle.plate (orString vehicle.model "Unknown")
    (orString vehicle.street "Unknown location") vehicle.plate vehicle.plate

/-- The element built by one round of the `forEach` body. -/
def vehicleItem (vehicle : Vehicle) : Element :=
  { tagName := "div"
    className := "vehicle-item"
    innerHTML := itemMarkup vehicle }

/-- `renderVehicles()`: empty the list; for no vehicles put the placeholder and
return; otherwise append one item per vehicle, in the order of `forEach`. -/
def renderVehicles (s : State) : State :=
  let cleared : List Element := []
  if s.vehicles.length = 0 then
    { s with dom := { s.dom with vehicleList := [placeholderItem] } }
  else
    { s with dom := { s.dom with
        vehicleList := s.vehicles.foldl (fun list vehicle => list ++ [vehicleItem vehicle]) cleared } }

/-- `openMenu(vehicleData, stats)`. -/
def openMenu (vehicleData : Option (List Vehicle)) (stats : Option Stats) (s : State) :
    State × List Request :=
  let s1 : State := { s with isOpen := true, vehicles := orArray vehicleData }
  let s2 : State :=
    { s1 with dom := { s1.dom with menuClassList := classListRemove s1.dom.menuClassList "hidden" } }
  let s3 : State :=
    match stats with
    | some st =>
      { s2 with dom := { s2.dom with
          parkedCount := numberToString st.used ++ "/" ++ numberToString st.max
          vipStatus := if st.isVip then "Yes" else "No" } }
    | none => s2
  (renderVehicles s3, [])

/-- `closeMenu()`. -/
def closeMenu (s : State) : State × List Request :=
  let s1 : State := { s with isOpen := false }
  let s2 : State :=
    { s1 with dom := { s1.dom with menuClassList := classListAdd s1.dom.menuClassList "hidden" } }
  (s2, [post "closeUI" (JSONstringify [])])

/-- `updateVehicles(vehicleData)`. -/
def updateVehicles (vehicleData : Option (List Vehicle)) (s : State) : State × List Request :=
  let s1 : State := { s with vehicles := orArray vehicleData }
  if s1.isOpen then (renderVehicles s1, []) else (s1, [])

/-- `requestDelivery(plate)`. -/
def requestDelivery (plate : String) (s : State) : State × List Request :=
  (s, [post "requestDelivery" (JSONstringify [("plate", plate)])])

/-- `viewOnMap(plate)`. -/
def viewOnMap (plate : String) (s : State) : State × List Request :=
  (s, [post "viewOnMap" (JSONstringify [("plate", plate)])])

/-- The `message` listener: the `switch` over `data.action`; any other tag falls
through without effect. -/
def onMessage (data : MessageData) (s : State) : State × List Request :=
  if data.action = "open" then openMenu data.vehicles data.stats s
  else if data.action = "close" then closeMenu s
  else if data.action = "update" then updateVehicles data.vehicles s
  else (s, [])

/-- The `keydown` listener. -/
def onKeydown (key : String) (s : State) : State × List Request :=
  if key = "Escape" ∧ s.isOpen = true then closeMenu s else (s, [])

/-- One event handled by the page. -/
def step (e : Event) (s : State) : State × List Request :=
  match e with
  | Event.message data => onMessage data s
  | Event.keydown key => onKeydown key s
  | Event.requestDelivery plate => requestDelivery plate s
  | Event.viewOnMap plate => viewOnMap plate s

/-- A sequence of events handled one after the other; the requests accumulate in the
order they were issued. -/
def run : List Event → State → State × List Request
  | [], s => (s, [])
  | e :: es, s =>
    let r := step e s
    let r2 := run es r.1
    (r2.1, r.2 ++ r2.2)

/-- The state when the script has loaded: both globals at their initialisers and
`#vehicle-list` without children; the class list of the menu and the two texts are
whatever the page's markup gives them. -/
def initialState (menuClassList : List String) (parkedCount vipStatus : String) : State :=
  { isOpen := false
    vehicles := []
    dom :=
      { menuClassList := menuClassList
        parkedCount := parkedCount
        vipStatus := vipStatus
        vehicleList := [] } }

/-- The panel is shown when its class list has no `hidden` token. -/
def panelVisible (s : State) : Prop := "hidden" ∉ s.dom.menuClassList

instance panelVisibleDecidable (s : State) : Decidable (panelVisible s) := by
  unfold panelVisible; infer_instance

/-- The displayed list is in sync with the stored one: when the panel is open, the
children of `#vehicle-list` are what `renderVehicles` produces from the state. -/
def inSync (s : State) : Prop :=
  s.isOpen = true → s.dom.vehicleList = (renderVehicles s).dom.vehicleList

/-! ## Example states -/

/-- An example state: the panel closed, nothing stored, the page as its markup would
leave it (menu hidden, counters at their placeholders). -/
def closedExample : State := initialState ["hidden"] "0/0" "No"

/-- An example state: the panel open on two vehicles, the second without a model. -/
def openExample : State :=
  (openMenu (some [⟨"ABC123", some "Sultan", some "Grove Street"⟩, ⟨"XYZ999", none, some "Pier"⟩])
    (some ⟨2, 10, true⟩) closedExample).1

set_option maxRecDepth 100000

/-! ## Lemmas about rendering -/

theorem foldl_appendChild (f : Vehicle → Element) (vs : List Vehicle) (acc : List Element) :
    vs.foldl (fun list vehicle => list ++ [f vehicle]) acc = acc ++ vs.map f := by
  induction vs generalizing acc with
  | nil => simp
  | cons v rest ih => simp [List.foldl_cons, ih]

/-! ### Numbers -/

theorem findShift_spec (m : Nat) (fuel s : Nat) (hs : 1 ≤ s) (h : 2 ^ 53 ≤ m / 2 ^ (s - 1)) :
    1 ≤ findShift m fuel s ∧ 2 ^ 53 ≤ m / 2 ^ (findShift m fuel s - 1) := by
  induction fuel generalizing s with
  | zero => exact ⟨hs, h⟩
  | succ fuel ih =>
    unfold findShift
    split
    · exact ⟨hs, h⟩
    · rename_i hlt
      exact ih (s + 1) (by omega) (by simpa using Nat.le_of_not_lt hlt)

theorem nearestDouble_of_lt (m : Nat) (h : m < 2 ^ 53) : nearestDouble m = m := by
  unfold nearestDouble
  rw [if_pos h]

theorem nearestDouble_ge (m : Nat) (h : 2 ^ 53 ≤ m) : 2 ^ 53 ≤ nearestDouble m := by
  unfold nearestDouble
  rw [if_neg (Nat.not_lt.mpr h)]
  obtain ⟨h1, h2⟩ := findShift_spec m 1024 1 (Nat.le_refl 1) (by simpa using h)
  generalize findShift m 1024 1 = shift at h1 h2
  obtain ⟨t, rfl⟩ : ∃ t, shift = t + 1 := ⟨shift - 1, by omega⟩
  simp only [Nat.add_sub_cancel] at h2
  have hdiv : m / 2 ^ (t + 1) = m / 2 ^ t / 2 := by
    rw [Nat.pow_succ, Nat.div_div_eq_div_mul]
  have hq : 2 ^ 52 ≤ m / 2 ^ (t + 1) := by
    rw [hdiv]
    have := Nat.div_le_div_right (c := 2) h2
    simpa using this
  have hp : 2 ≤ 2 ^ (t + 1) := by
    have := Nat.pow_le_pow_right (n := 2) (by decide : 0 < 2) (show 1 ≤ t + 1 by omega)
    simpa using this
  have hmul : 2 ^ 53 ≤ m / 2 ^ (t + 1) * 2 ^ (t + 1) := by
    calc 2 ^ 53 = 2 ^ 52 * 2 := by norm_num
      _ ≤ m / 2 ^ (t + 1) * 2 ^ (t + 1) := Nat.mul_le_mul hq hp
  simp only []
  split
  · exact Nat.le_trans hmul (Nat.mul_le_mul_right _ (Nat.le_succ _))
  · exact hmul

theorem eq_of_nearestDouble_eq (v x : Nat) (hx : x < 2 ^ 53) (h : nearestDouble v = x) :
    v = x := by
  by_cases hv : v < 2 ^ 53
  · rw [nearestDouble_of_lt v hv] at h
    exact h
  · have := nearestDouble_ge v (Nat.le_of_not_lt hv)
    omega

theorem shortestAt_sound (x k v : Nat) (h : shortestAt x k = some v) : nearestDouble v = x := by
  unfold shortestAt at h
  simp only [] at h
  split at h
  · rename_i hboth
    split at h
    · cases h; exact hboth.1
    · split at h
      · cases h; exact hboth.2
      · split at h
        · cases h; exact hboth.1
        · cases h; exact hboth.2
  · split at h
    · rename_i hlo
      cases h; exact hlo
    · split at h
      · rename_i hhi
        cases h; exact hhi
      · cases h

theorem searchShortest_of_lt (x : Nat) (hx : x < 2 ^ 53) (fuel k : Nat) :
    searchShortest x fuel k = x := by
  induction fuel generalizing k with
  | zero => rfl
  | succ fuel ih =>
    unfold searchShortest
    split
    · rename_i v hv
      exact eq_of_nearestDouble_eq v x hx (shortestAt_sound x k v hv)
    · exact ih (k + 1)

theorem numberToStringNat_of_lt (m : Nat) (h : m < 2 ^ 53) :
    numberToStringNat m = String.mk (Nat.toDigits 10 m) := by
  unfold numberToStringNat
  by_cases h0 : m = 0
  · subst h0
    rfl
  have hb : (2 : Nat) ^ 53 ≤ maxDoubleBound := by
    unfold maxDoubleBound
    have ha : (2 : Nat) ^ 53 ≤ 2 ^ 256 := Nat.pow_le_pow_right (by decide) (by decide)
    have hpos : 0 < (2 : Nat) ^ 256 := Nat.pow_pos (by decide)
    exact Nat.le_trans ha (Nat.le_trans (Nat.le_mul_of_pos_right _ hpos)
      (Nat.le_trans (Nat.le_mul_of_pos_right _ hpos) (Nat.le_mul_of_pos_right _ hpos)))
  have h1 : ¬ maxDoubleBound ≤ m := by omega
  have h2 : ¬ maxDoubleBound ≤ nearestDouble m := by
    rw [nearestDouble_of_lt m h]; exact h1
  have h3 : (2 : Nat) ^ 53 ≤ 10 ^ 21 := by norm_num
  rw [if_neg h0, if_neg h1, if_neg h2]
  simp only [nearestDouble_of_lt m h, searchShortest_of_lt m h]
  rw [if_pos (by omega)]

theorem numberToString_of_safe (n : Int) (h : n.natAbs < 2 ^ 53) :
    numberToString n = toString n := by
  cases n with
  | ofNat m =>
    simp only [numberToString]
    rw [numberToStringNat_of_lt m (by simpa using h)]
    rfl
  | negSucc m =>
    simp only [numberToString]
    rw [numberToStringNat_of_lt (m + 1) (by simpa [Int.natAbs] using h)]
    rfl

/-! ### The list -/

theorem renderVehicles_isOpen (s : State) : (renderVehicles s).isOpen = s.isOpen := by
  unfold renderVehicles
  split <;> rfl

theorem renderVehicles_vehicles (s : State) : (renderVehicles s).vehicles = s.vehicles := by
  unfold renderVehicles
  split <;> rfl

theorem renderVehicles_list_nil (s : State) (h : s.vehicles = []) :
    (renderVehicles s).dom.vehicleList = [placeholderItem] := by
  unfold renderVehicles
  simp [h]

theorem renderVehicles_list_map (s : State) (h : s.vehicles ≠ []) :
    (renderVehicles s).dom.vehicleList = s.vehicles.map vehicleItem := by
  unfold renderVehicles
  have hlen : ¬ s.vehicles.length = 0 := by
    intro h0
    exact h (List.length_eq_zero.mp h0)
  simp only [hlen, if_false]
  rw [foldl_appendChild]
  simp

theorem renderVehicles_list_congr (s t : State) (h : s.vehicles = t.vehicles) :
    (renderVehicles s).dom.vehicleList = (renderVehicles t).dom.vehicleList := by
  by_cases hs : s.vehicles = []
  · rw [renderVehicles_list_nil s hs, renderVehicles_list_nil t (h ▸ hs)]
  · rw [renderVehicles_list_map s hs, renderVehicles_list_map t (h ▸ hs), h]

theorem renderVehicles_idempotent (s : State) :
    renderVehicles (renderVehicles s) = renderVehicles s := by
  unfold renderVehicles
  split <;> simp_all

theorem renderVehicles_idempotent_list (s : State) :
    (renderVehicles (renderVehicles s)).dom.vehicleList = (renderVehicles s).dom.vehicleList := by
  rw [renderVehicles_idempotent]

theorem renderVehicles_eq (s : State) :
    renderVehicles s =
      { s with dom := { s.dom with vehicleList := (renderVehicles s).dom.vehicleList } } := by
  unfold renderVehicles
  split <;> rfl

theorem itemMarkup_data_head (v : Vehicle) :
    ∃ rest : List Char, (itemMarkup v).data = '\n' :: rest := by
  unfold itemMarkup itemTemplate
  simp only [String.data_append]
  exact ⟨_, rfl⟩

theorem vehicleItem_ne_placeholderItem (v : Vehicle) : vehicleItem v ≠ placeholderItem := by
  intro h
  have hm : itemMarkup v = placeholderItem.innerHTML := congrArg Element.innerHTML h
  obtain ⟨rest, hrest⟩ := itemMarkup_data_head v
  rw [hm] at hrest
  revert hrest
  unfold placeholderItem
  simp

/-! ## Rendering -/

/-- C10: `renderVehicles` is idempotent and full-replace: rendering twice gives the state
that rendering once gives, so the same children of `#vehicle-list`; and those children are
the same from any other state `t` that stores the same vehicles, whatever its list held
before: they depend on the stored vehicles only. -/
theorem renderVehicles_idempotent_full_replace (s t : State) (prior : List Element) :
    renderVehicles (renderVehicles s) = renderVehicles s ∧
    (renderVehicles (renderVehicles s)).dom.vehicleList = (renderVehicles s).dom.vehicleList ∧
    (renderVehicles { s with dom := { s.dom with vehicleList := prior } }).dom.vehicleList =
      (renderVehicles s).dom.vehicleList ∧
    (renderVehicles { t with vehicles := s.vehicles }).dom.vehicleList =
      (renderVehicles s).dom.vehicleList ∧
    (renderVehicles s).dom.vehicleList =
      (if s.vehicles = [] then [placeholderItem] else s.vehicles.map vehicleItem) := by
  refine ⟨renderVehicles_idempotent s, renderVehicles_idempotent_list s,
    renderVehicles_list_congr _ _ rfl, renderVehicles_list_congr _ _ rfl, ?_⟩
  by_cases h : s.vehicles = []
  · rw [if_pos h, renderVehicles_list_nil s h]
  · rw [if_neg h, renderVehicles_list_map s h]

/-! ## The handlers, field by field -/

theorem openMenu_isOpen (vd : Option (List Vehicle)) (st : Option Stats) (s : State) :
    (openMenu vd st s).1.isOpen = true := by
  cases st <;> simp [openMenu, renderVehicles_isOpen]

theorem openMenu_vehicles (vd : Option (List Vehicle)) (st : Option Stats) (s : State) :
    (openMenu vd st s).1.vehicles = orArray vd := by
  cases st <;> simp [openMenu, renderVehicles_vehicles]

theorem openMenu_list (vd : Option (List Vehicle)) (st : Option Stats) (s : State) :
    (openMenu vd st s).1.dom.vehicleList =
      if orArray vd = [] then [placeholderItem] else (orArray vd).map vehicleItem := by
  by_cases h : orArray vd = []
  · rw [if_pos h]
    cases st <;> exact renderVehicles_list_nil _ h
  · rw [if_neg h]
    cases st <;> exact renderVehicles_list_map _ h

theorem openMenu_rendered (vd : Option (List Vehicle)) (st : Option Stats) (s : State) :
    (openMenu vd st s).1.dom.vehicleList =
      (renderVehicles (openMenu vd st s).1).dom.vehicleList := by
  cases st <;> exact (renderVehicles_idempotent_list _).symm

theorem openMenu_menuClassList (vd : Option (List Vehicle)) (st : Option Stats) (s : State) :
    (openMenu vd st s).1.dom.menuClassList = classListRemove s.dom.menuClassList "hidden" := by
  cases st <;> simp only [openMenu] <;> rw [renderVehicles_eq]

theorem openMenu_parkedCount (vd : Option (List Vehicle)) (st : Stats) (s : State) :
    (openMenu vd (some st) s).1.dom.parkedCount =
      numberToString st.used ++ "/" ++ numberToString st.max := by
  simp only [openMenu]
  rw [renderVehicles_eq]

theorem openMenu_vipStatus (vd : Option (List Vehicle)) (st : Stats) (s : State) :
    (openMenu vd (some st) s).1.dom.vipStatus = (if st.isVip = true then "Yes" else "No") := by
  simp only [openMenu]
  rw [renderVehicles_eq]

theorem openMenu_texts_without_stats (vd : Option (List Vehicle)) (s : State) :
    (openMenu vd none s).1.dom.parkedCount = s.dom.parkedCount ∧
    (openMenu vd none s).1.dom.vipStatus = s.dom.vipStatus := by
  simp only [openMenu]
  rw [renderVehicles_eq]
  exact ⟨rfl, rfl⟩

theorem openMenu_requests (vd : Option (List Vehicle)) (st : Option Stats) (s : State) :
    (openMenu vd st s).2 = [] := rfl

theorem closeUI_request :
    post "closeUI" (JSONstringify []) =
      ⟨"https://dps-parking/closeUI", "POST", [("Content-Type", "application/json")],
        "\x7b\x7d"⟩ := by
  decide

theorem closeMenu_requests (s : State) :
    (closeMenu s).2 =
      [⟨"https://dps-parking/closeUI", "POST", [("Content-Type", "application/json")],
        "\x7b\x7d"⟩] := by
  rw [← closeUI_request]
  rfl

theorem post_eq (endpoint body : String) :
    post endpoint body =
      ⟨"https://dps-parking/" ++ endpoint, "POST", [("Content-Type", "application/json")],
        body⟩ := by
  unfold post
  have h : "https://" ++ GetParentResourceName ++ "/" = "https://dps-parking/" := by decide
  rw [h]

theorem JSONstringify_plate (p : String) :
    JSONstringify [("plate", p)] = "\x7b\"plate\":" ++ quoteJSONString p ++ "\x7d" := by
  unfold JSONstringify stringifyMembers
  have hq : "\x7b" ++ (quoteJSONString "plate" ++ ":") = "\x7b\"plate\":" := by decide
  rw [← hq]
  simp [String.append_assoc]

theorem readJSONString_escape_u (n : Nat) (hn : n < 32) (tail : List Char) :
    readJSONString ReadMode.plain
        ('\\' :: 'u' :: '0' :: '0' :: hexDigit (n / 16) :: hexDigit (n % 16) :: tail) =
      (readJSONString ReadMode.plain tail).map (fun r => (Char.ofNat n :: r.1, r.2)) := by
  interval_cases n <;> simp [readJSONString, hexDigit, hexValue]

theorem char_eq_of_toNat (c : Char) (n : Nat) (h : c.toNat = n) : c = Char.ofNat n := by
  rw [← h, Char.ofNat_toNat]

theorem readJSONString_quoteJSONChar (c : Char) (tail : List Char) :
    readJSONString ReadMode.plain (quoteJSONChar c ++ tail) =
      (readJSONString ReadMode.plain tail).map (fun r => (c :: r.1, r.2)) := by
  unfold quoteJSONChar
  by_cases h1 : c = '"'
  · subst h1
    simp [readJSONString]
  by_cases h2 : c = '\\'
  · subst h2
    simp [readJSONString]
  by_cases h3 : c.toNat = 8
  · rw [char_eq_of_toNat c 8 h3]
    simp [readJSONString]
  by_cases h4 : c.toNat = 9
  · rw [char_eq_of_toNat c 9 h4]
    simp [readJSONString]
  by_cases h5 : c.toNat = 10
  · rw [char_eq_of_toNat c 10 h5]
    simp [readJSONString]
  by_cases h6 : c.toNat = 12
  · rw [char_eq_of_toNat c 12 h6]
    simp [readJSONString]
  by_cases h7 : c.toNat = 13
  · rw [char_eq_of_toNat c 13 h7]
    simp [readJSONString]
  by_cases h8 : c.toNat < 32
  · simp only [h1, h2, h3, h4, h5, h6, h7, h8, if_true, if_false]
    have := readJSONString_escape_u c.toNat h8 tail
    rw [Char.ofNat_toNat] at this
    exact this
  · simp only [h1, h2, h3, h4, h5, h6, h7, h8, if_false]
    simp [readJSONString, h1, h2, h8]

theorem readJSONString_quoted (s rest : List Char) :
    readJSONString ReadMode.plain (s.flatMap quoteJSONChar ++ '"' :: rest) = some (s, rest) := by
  induction s with
  | nil => simp [readJSONString]
  | cons c s ih =>
    rw [List.flatMap_cons, List.append_assoc, readJSONString_quoteJSONChar, ih]
    rfl

theorem readSingleMember_plate (p : String) :
    readSingleMember (JSONstringify [("plate", p)]) = some ("plate", p) := by
  have hd : (JSONstringify [("plate", p)]).data =
      Char.ofNat 123 :: '"' :: ("plate".data.flatMap quoteJSONChar ++ '"' ::
        (':' :: '"' :: (p.data.flatMap quoteJSONChar ++ '"' :: [Char.ofNat 125]))) := by
    simp [JSONstringify, stringifyMembers, quoteJSONString, String.data_append]
  unfold readSingleMember
  rw [hd]
  simp only [readJSONString_quoted]
  simp

theorem hidden_not_mem_classListRemove (classes : List String) :
    "hidden" ∉ classListRemove classes "hidden" := by
  unfold classListRemove
  simp [List.mem_filter]

theorem hidden_mem_classListAdd (classes : List String) :
    "hidden" ∈ classListAdd classes "hidden" := by
  unfold classListAdd
  split
  · assumption
  · simp

/-- C5: an `open` message without `vehicles` leaves the stored list empty and exactly one
child in `#vehicle-list`, the placeholder row with the text "No parked vehicles", which is
no vehicle row; this holds from every prior state, whatever list it stored. -/
theorem open_without_vehicles_shows_placeholder (s : State) (stats : Option Stats) :
    (onMessage ⟨"open", none, stats⟩ s).1.vehicles = [] ∧
    (onMessage ⟨"open", none, stats⟩ s).1.dom.vehicleList =
      [⟨"div", "vehicle-item", "<div class=\"info\">No parked vehicles</div>"⟩] ∧
    (onMessage ⟨"open", none, stats⟩ s).1.dom.vehicleList.length = 1 ∧
    ∀ v : Vehicle, vehicleItem v ∉ (onMessage ⟨"open", none, stats⟩ s).1.dom.vehicleList := by
  have ho : onMessage ⟨"open", none, stats⟩ s = openMenu none stats s := by
    simp [onMessage]
  have hl : (onMessage ⟨"open", none, stats⟩ s).1.dom.vehicleList = [placeholderItem] := by
    rw [ho, openMenu_list]
    simp [orArray]
  refine ⟨?_, ?_, ?_, ?_⟩
  · rw [ho, openMenu_vehicles]; rfl
  · rw [hl]; rfl
  · rw [hl]; rfl
  · intro v hmem
    rw [hl] at hmem
    exact vehicleItem_ne_placeholderItem v (List.mem_singleton.mp hmem)

/-- C6 (as stated, refuted): a vehicle whose `model` is present but is the empty string
is not shown with its model: `'' || 'Unknown'` is `'Unknown'`, so the info line of its row
reads "Unknown - Unknown location", not " - Unknown location".  And the plate goes into
the markup as it is: for the plate "O'Brien" the text of the first handler is
`requestDelivery('O'Brien')`, which is not a call with that plate as its argument. -/
theorem renderVehicles_empty_model_shows_unknown :
    (renderVehicles ⟨true, [⟨"ABC123", some "", none⟩], closedExample.dom⟩).dom.vehicleList =
        [⟨"div", "vehicle-item",
          "\n            <div class=\"plate\">ABC123</div>\n            <div class=\"info\">Unknown - Unknown location</div>\n            <div class=\"actions\">\n                <button class=\"btn btn-primary\" onclick=\"requestDelivery('ABC123')\">Request Delivery</button>\n                <button class=\"btn btn-secondary\" onclick=\"viewOnMap('ABC123')\">View on Map</button>\n            </div>\n        "⟩] ∧
    (renderVehicles ⟨true, [⟨"ABC123", some "", none⟩], closedExample.dom⟩).dom.vehicleList ≠
        [⟨"div", "vehicle-item",
          "\n            <div class=\"plate\">ABC123</div>\n            <div class=\"info\"> - Unknown location</div>\n            <div class=\"actions\">\n                <button class=\"btn btn-primary\" onclick=\"requestDelivery('ABC123')\">Request Delivery</button>\n                <button class=\"btn btn-secondary\" onclick=\"viewOnMap('ABC123')\">View on Map</button>\n            </div>\n        "⟩] ∧
    (renderVehicles ⟨true, [⟨"O'Brien", none, none⟩], closedExample.dom⟩).dom.vehicleList =
        [⟨"div", "vehicle-item",
          "\n            <div class=\"plate\">O'Brien</div>\n            <div class=\"info\">Unknown - Unknown location</div>\n            <div class=\"actions\">\n                <button class=\"btn btn-primary\" onclick=\"requestDelivery('O'Brien')\">Request Delivery</button>\n                <button class=\"btn btn-secondary\" onclick=\"viewOnMap('O'Brien')\">View on Map</button>\n            </div>\n        "⟩] := by
  refine ⟨?_, ?_, ?_⟩
  · decide
  · decide
  · decide

/-- C6 (amended): for a non-empty stored list `renderVehicles` leaves exactly one child
per vehicle in `#vehicle-list`, in list order: child `i` is a `div` of class
`vehicle-item` whose `innerHTML` is assigned the markup written out below, with the plate
of vehicle `i` put as it is (not escaped) into the plate `div`, its model (or "Unknown"
when the model is missing or the empty string) and its street (or "Unknown location" when
the street is missing or the empty string) put as they are into the info `div`, and the
same plate put as it is between single quotes as the argument in the `onclick` text of
both buttons. -/
theorem renderVehicles_one_row_per_vehicle (s : State) (h : s.vehicles ≠ []) :
    (renderVehicles s).dom.vehicleList.length = s.vehicles.length ∧
    ∀ (i : Nat) (hi : i < s.vehicles.length),
      (renderVehicles s).dom.vehicleList[i]? =
        some ⟨"div", "vehicle-item",
          "\n            <div class=\"plate\">" ++ (s.vehicles.get ⟨i, hi⟩).plate ++
          "</div>\n            <div class=\"info\">" ++
            (match (s.vehicles.get ⟨i, hi⟩).model with
              | some m => if m = "" then "Unknown" else m
              | none => "Unknown") ++
            " - " ++
            (match (s.vehicles.get ⟨i, hi⟩).street with
              | some st => if st = "" then "Unknown location" else st
              | none => "Unknown location") ++
          "</div>\n            <div class=\"actions\">\n                <button class=\"btn btn-primary\" onclick=\"requestDelivery('" ++
            (s.vehicles.get ⟨i, hi⟩).plate ++
          "')\">Request Delivery</button>\n                <button class=\"btn btn-secondary\" onclick=\"viewOnMap('" ++
            (s.vehicles.get ⟨i, hi⟩).plate ++
          "')\">View on Map</button>\n            </div>\n        "⟩ := by
  rw [renderVehicles_list_map s h]
  refine ⟨by simp, ?_⟩
  intro i hi
  rw [List.getElem?_map, List.getElem?_eq_getElem hi]
  simp only [Option.map_some', List.get_eq_getElem, vehicleItem, itemMarkup, itemTemplate,
    orString]
  rcases hm : (s.vehicles[i]).model with _ | m <;>
    rcases hs : (s.vehicles[i]).street with _ | st <;> rfl

/-- Witness of C6 (amended): the second row of the two-vehicle example. -/
theorem renderVehicles_one_row_per_vehicle_witness :
    (renderVehicles openExample).dom.vehicleList.length = 2 ∧
    (renderVehicles openExample).dom.vehicleList[1]? =
      some ⟨"div", "vehicle-item",
        "\n            <div class=\"plate\">XYZ999</div>\n            <div class=\"info\">Unknown - Pier</div>\n            <div class=\"actions\">\n                <button class=\"btn btn-primary\" onclick=\"requestDelivery('XYZ999')\">Request Delivery</button>\n                <button class=\"btn btn-secondary\" onclick=\"viewOnMap('XYZ999')\">View on Map</button>\n            </div>\n        "⟩ :=
  ⟨(renderVehicles_one_row_per_vehicle openExample (by decide)).1,
   (renderVehicles_one_row_per_vehicle openExample (by decide)).2 1 (by decide)⟩

/-! ## Inbound messages -/

/-- C7 (as stated, refuted): for an `open` message with `used` at ten to the power 21
the occupancy text is not the decimal of `used`, a slash and the decimal of `max`: the
template literal prints that Number in exponential form, "1e+21/10". -/
theorem open_huge_count_prints_exponent :
    (onMessage ⟨"open", none, some ⟨1000000000000000000000, 10, false⟩⟩
        closedExample).1.dom.parkedCount = "1e+21/10" ∧
    (onMessage ⟨"open", none, some ⟨1000000000000000000000, 10, false⟩⟩
        closedExample).1.dom.parkedCount ≠
      toString (1000000000000000000000 : Int) ++ "/" ++ toString (10 : Int) := by
  constructor
  · decide
  · decide

/-- C7 (amended): an `open` message with stats leaves `isOpen` true and the panel without
the `hidden` class, sets the occupancy text to what a template literal prints for `used`,
a slash and what it prints for `max`, which is the decimal of `used`, a slash and the
decimal of `max` whenever both are safe integers (magnitude below 2 to the power 53), and
sets the VIP text to "Yes" or "No" after `isVip`; without stats both texts stay as they
were.  The scenario of the specification: one vehicle with only the plate "ABC123" and
stats 2, 10, not VIP give "2/10", "No" and one row with "Unknown" and
"Unknown location". -/
theorem open_shows_panel_and_stats (s : State) (vd : Option (List Vehicle)) (st : Stats) :
    ((onMessage ⟨"open", vd, some st⟩ s).1.isOpen = true ∧
      panelVisible (onMessage ⟨"open", vd, some st⟩ s).1 ∧
      (st.used.natAbs < 2 ^ 53 → st.max.natAbs < 2 ^ 53 →
        (onMessage ⟨"open", vd, some st⟩ s).1.dom.parkedCount =
          toString st.used ++ "/" ++ toString st.max) ∧
      (onMessage ⟨"open", vd, some st⟩ s).1.dom.parkedCount =
        numberToString st.used ++ "/" ++ numberToString st.max ∧
      (onMessage ⟨"open", vd, some st⟩ s).1.dom.vipStatus =
        (if st.isVip = true then "Yes" else "No")) ∧
    ((onMessage ⟨"open", vd, none⟩ s).1.isOpen = true ∧
      panelVisible (onMessage ⟨"open", vd, none⟩ s).1 ∧
      (onMessage ⟨"open", vd, none⟩ s).1.dom.parkedCount = s.dom.parkedCount ∧
      (onMessage ⟨"open", vd, none⟩ s).1.dom.vipStatus = s.dom.vipStatus) ∧
    ((onMessage ⟨"open", some [⟨"ABC123", none, none⟩], some ⟨2, 10, false⟩⟩ s).1.isOpen = true ∧
      panelVisible (onMessage ⟨"open", some [⟨"ABC123", none, none⟩], some ⟨2, 10, false⟩⟩ s).1 ∧
      (onMessage ⟨"open", some [⟨"ABC123", none, none⟩], some ⟨2, 10, false⟩⟩ s).1.dom.parkedCount
        = "2/10" ∧
      (onMessage ⟨"open", some [⟨"ABC123", none, none⟩], some ⟨2, 10, false⟩⟩ s).1.dom.vipStatus
        = "No" ∧
      (onMessage ⟨"open", some [⟨"ABC123", none, none⟩], some ⟨2, 10, false⟩⟩ s).1.dom.vehicleList
        = [⟨"div", "vehicle-item",
            "\n            <div class=\"plate\">ABC123</div>\n            <div class=\"info\">Unknown - Unknown location</div>\n            <div class=\"actions\">\n                <button class=\"btn btn-primary\" onclick=\"requestDelivery('ABC123')\">Request Delivery</button>\n                <button class=\"btn btn-secondary\" onclick=\"viewOnMap('ABC123')\">View on Map</button>\n            </div>\n        "⟩]) := by
  have ho : ∀ (v : Option (List Vehicle)) (t : Option Stats),
      onMessage ⟨"open", v, t⟩ s = openMenu v t s := by
    intro v t
    simp [onMessage]
  have hvis : ∀ (v : Option (List Vehicle)) (t : Option Stats),
      panelVisible (openMenu v t s).1 := by
    intro v t
    unfold panelVisible
    rw [openMenu_menuClassList]
    exact hidden_not_mem_classListRemove _
  refine ⟨⟨?_, ?_, ?_, ?_, ?_⟩, ⟨?_, ?_, ?_, ?_⟩, ⟨?_, ?_, ?_, ?_, ?_⟩⟩
  · rw [ho]; exact openMenu_isOpen _ _ _
  · rw [ho]; exact hvis _ _
  · intro hu hm
    rw [ho, openMenu_parkedCount, numberToString_of_safe _ hu, numberToString_of_safe _ hm]
  · rw [ho, openMenu_parkedCount]
  · rw [ho, openMenu_vipStatus]
  · rw [ho]; exact openMenu_isOpen _ _ _
  · rw [ho]; exact hvis _ _
  · rw [ho]; exact (openMenu_texts_without_stats _ _).1
  · rw [ho]; exact (openMenu_texts_without_stats _ _).2
  · rw [ho]; exact openMenu_isOpen _ _ _
  · rw [ho]; exact hvis _ _
  · rw [ho, openMenu_parkedCount]; decide
  · rw [ho, openMenu_vipStatus]; rfl
  · rw [ho, openMenu_list]; decide

/-- Witness of C7 (amended): the largest safe integer as `used` is printed in full. -/
theorem open_shows_panel_and_stats_witness :
    (onMessage ⟨"open", none, some ⟨9007199254740991, 10, true⟩⟩ closedExample).1.dom.parkedCount =
      toString (9007199254740991 : Int) ++ "/" ++ toString (10 : Int) :=
  (open_shows_panel_and_stats closedExample none ⟨9007199254740991, 10, true⟩).1.2.2.1
    (by decide) (by decide)

/-- C3: an `update` message handled while the panel is closed changes nothing of the
document (children of the list, class list of the menu, occupancy and VIP texts), leaves
`isOpen` false and issues no request; only the stored list changes, to the list of the
message, or to the empty list when the message has none. -/
theorem update_while_closed_only_stores (s : State) (vd : Option (List Vehicle))
    (st : Option Stats) (h : s.isOpen = false) :
    (onMessage ⟨"update", vd, st⟩ s).1.dom = s.dom ∧
    (onMessage ⟨"update", vd, st⟩ s).1.isOpen = false ∧
    (onMessage ⟨"update", vd, st⟩ s).1.vehicles = vd.getD [] ∧
    (onMessage ⟨"update", vd, st⟩ s).2 = [] := by
  have hu : onMessage ⟨"update", vd, st⟩ s = ({ s with vehicles := orArray vd }, []) := by
    simp [onMessage, updateVehicles, h]
  rw [hu]
  refine ⟨rfl, h, ?_, rfl⟩
  cases vd <;> rfl

/-- Witness of C3: an update with one vehicle on the closed example state. -/
theorem update_while_closed_only_stores_witness :
    (onMessage ⟨"update", some [⟨"ABC123", none, none⟩], none⟩ closedExample).1.dom =
        closedExample.dom ∧
    (onMessage ⟨"update", some [⟨"ABC123", none, none⟩], none⟩ closedExample).1.isOpen = false ∧
    (onMessage ⟨"update", some [⟨"ABC123", none, none⟩], none⟩ closedExample).1.vehicles =
        [⟨"ABC123", none, none⟩] ∧
    (onMessage ⟨"update", some [⟨"ABC123", none, none⟩], none⟩ closedExample).2 = [] :=
  update_while_closed_only_stores closedExample (some [⟨"ABC123", none, none⟩]) none rfl

/-- C4 (as stated, refuted): after an update with one vehicle on the closed panel, an
`open` message without `vehicles` does not show the row of the stored vehicle: the list
holds the placeholder row and the stored list is empty again. -/
theorem open_after_update_discards_stored_list :
    (onMessage ⟨"open", none, none⟩
        (onMessage ⟨"update", some [⟨"ABC123", none, none⟩], none⟩ closedExample).1).1.dom.vehicleList
      ≠ [vehicleItem ⟨"ABC123", none, none⟩] ∧
    (onMessage ⟨"open", none, none⟩
        (onMessage ⟨"update", some [⟨"ABC123", none, none⟩], none⟩ closedExample).1).1.dom.vehicleList
      = [placeholderItem] ∧
    (onMessage ⟨"open", none, none⟩
        (onMessage ⟨"update", some [⟨"ABC123", none, none⟩], none⟩ closedExample).1).1.vehicles
      = [] := by
  refine ⟨?_, ?_, ?_⟩
  · decide
  · decide
  · decide

/-- C4 (amended): after an `update` message carrying a list is handled while the panel
is closed (which stores the list and leaves the displayed rows alone), the next `open`
message displays its own vehicles when it carries a non-empty list, and the placeholder
row otherwise; the stored list becomes the list of the `open` message (empty when it has
none), so the list stored by the update is replaced. -/
theorem open_after_closed_update_shows_own_list (s : State) (vs : List Vehicle)
    (ust : Option Stats) (ov : Option (List Vehicle)) (ost : Option Stats)
    (h : s.isOpen = false) :
    (onMessage ⟨"update", some vs, ust⟩ s).1.dom.vehicleList = s.dom.vehicleList ∧
    (onMessage ⟨"update", some vs, ust⟩ s).1.vehicles = vs ∧
    (onMessage ⟨"open", ov, ost⟩ (onMessage ⟨"update", some vs, ust⟩ s).1).1.vehicles
      = ov.getD [] ∧
    (onMessage ⟨"open", ov, ost⟩ (onMessage ⟨"update", some vs, ust⟩ s).1).1.dom.vehicleList
      = (if ov.getD [] = [] then [placeholderItem] else (ov.getD []).map vehicleItem) ∧
    (onMessage ⟨"open", ov, ost⟩ (onMessage ⟨"update", some vs, ust⟩ s).1).1.isOpen = true := by
  have ho : ∀ t : State, onMessage ⟨"open", ov, ost⟩ t = openMenu ov ost t := by
    intro t
    simp [onMessage]
  have hg : orArray ov = ov.getD [] := by cases ov <;> rfl
  have hu : onMessage ⟨"update", some vs, ust⟩ s = ({ s with vehicles := vs }, []) := by
    simp [onMessage, updateVehicles, h, orArray]
  rw [ho, openMenu_vehicles, openMenu_list, openMenu_isOpen, hg, hu]
  exact ⟨rfl, rfl, rfl, rfl, rfl⟩

/-- Witness of C4 (amended): update with one vehicle, then open with another. -/
theorem open_after_closed_update_shows_own_list_witness :
    (onMessage ⟨"open", some [⟨"XYZ999", none, none⟩], none⟩
        (onMessage ⟨"update", some [⟨"ABC123", none, none⟩], none⟩ closedExample).1).1.dom.vehicleList
      = [vehicleItem ⟨"XYZ999", none, none⟩] :=
  (open_after_closed_update_shows_own_list closedExample [⟨"ABC123", none, none⟩] none
    (some [⟨"XYZ999", none, none⟩]) none rfl).2.2.2.1

/-- C1 (as stated, refuted): handling a `close` message on the closed example state
issues a request; the list of outbound requests is not empty. -/
theorem close_message_issues_request :
    (onMessage ⟨"close", none, none⟩ closedExample).2 ≠ [] := by
  decide

/-- C1 (amended): handling a `close` message sets `isOpen` to false and puts the `hidden`
class on the panel, leaves the stored list and the rest of the document alone, and issues
exactly one request: a POST of the empty JSON object to the `closeUI` endpoint. -/
theorem close_message_hides_and_notifies (s : State) (vd : Option (List Vehicle))
    (st : Option Stats) :
    (onMessage ⟨"close", vd, st⟩ s).1.isOpen = false ∧
    ¬ panelVisible (onMessage ⟨"close", vd, st⟩ s).1 ∧
    (onMessage ⟨"close", vd, st⟩ s).1.vehicles = s.vehicles ∧
    (onMessage ⟨"close", vd, st⟩ s).1.dom.vehicleList = s.dom.vehicleList ∧
    (onMessage ⟨"close", vd, st⟩ s).1.dom.parkedCount = s.dom.parkedCount ∧
    (onMessage ⟨"close", vd, st⟩ s).1.dom.vipStatus = s.dom.vipStatus ∧
    (onMessage ⟨"close", vd, st⟩ s).2 =
      [⟨"https://dps-parking/closeUI", "POST", [("Content-Type", "application/json")],
        "\x7b\x7d"⟩] := by
  have hc : onMessage ⟨"close", vd, st⟩ s = closeMenu s := by
    simp [onMessage]
  rw [hc]
  refine ⟨rfl, ?_, rfl, rfl, rfl, rfl, closeMenu_requests s⟩
  intro hv
  exact hv (hidden_mem_classListAdd _)

/-! ## Keyboard and buttons -/

/-- C8: a keydown of Escape while the panel is open issues exactly one request, a POST
of the empty JSON object to `https://dps-parking/closeUI`, and leaves `isOpen` false and
the panel hidden; a keydown of Escape while the panel is closed, and a keydown of any
other key, leave the state and the document as they are and issue no request. -/
theorem escape_closes_only_when_open (s : State) (key : String) :
    (key = "Escape" → s.isOpen = true →
      (onKeydown key s).2 =
          [⟨"https://dps-parking/closeUI", "POST", [("Content-Type", "application/json")],
            "\x7b\x7d"⟩] ∧
        (onKeydown key s).1.isOpen = false ∧
        ¬ panelVisible (onKeydown key s).1) ∧
    (s.isOpen = false ∨ key ≠ "Escape" → onKeydown key s = (s, [])) := by
  constructor
  · intro hk ho
    have hc : onKeydown key s = closeMenu s := by
      simp [onKeydown, hk, ho]
    rw [hc]
    refine ⟨closeMenu_requests s, rfl, ?_⟩
    intro hv
    exact hv (hidden_mem_classListAdd _)
  · intro h
    unfold onKeydown
    rcases h with h | h
    · simp [h]
    · simp [h]

/-- Witness of C8: Escape on the open example closes it with one request; Escape on the
closed example and the key "a" on the open example do nothing. -/
theorem escape_closes_only_when_open_witness :
    ((onKeydown "Escape" openExample).2 =
        [⟨"https://dps-parking/closeUI", "POST", [("Content-Type", "application/json")],
          "\x7b\x7d"⟩] ∧
      (onKeydown "Escape" openExample).1.isOpen = false ∧
      ¬ panelVisible (onKeydown "Escape" openExample).1) ∧
    onKeydown "Escape" closedExample = (closedExample, []) ∧
    onKeydown "a" openExample = (openExample, []) :=
  ⟨(escape_closes_only_when_open openExample "Escape").1 rfl (by decide),
   (escape_closes_only_when_open closedExample "Escape").2 (Or.inl rfl),
   (escape_closes_only_when_open openExample "a").2 (Or.inr (by decide))⟩

/-- C9: `requestDelivery(p)` issues exactly one request, a POST to
`https://dps-parking/requestDelivery` with the header `Content-Type: application/json`
and the JSON text of the object whose single member `plate` is `p` (reading the body back
gives the member `plate` with the value `p`); `viewOnMap(p)` issues
exactly one such request to `https://dps-parking/viewOnMap`; both leave the whole state
(`isOpen`, the stored list, the document) as it is.  For the plate "XYZ999" the body is
the text `{"plate":"XYZ999"}`. -/
theorem plate_actions_post_once (s : State) (p : String) :
    requestDelivery p s =
      (s, [⟨"https://dps-parking/requestDelivery", "POST",
            [("Content-Type", "application/json")],
            "\x7b\"plate\":" ++ quoteJSONString p ++ "\x7d"⟩]) ∧
    viewOnMap p s =
      (s, [⟨"https://dps-parking/viewOnMap", "POST",
            [("Content-Type", "application/json")],
            "\x7b\"plate\":" ++ quoteJSONString p ++ "\x7d"⟩]) ∧
    (requestDelivery p s).2.map (fun r => readSingleMember r.body) = [some ("plate", p)] ∧
    (viewOnMap p s).2.map (fun r => readSingleMember r.body) = [some ("plate", p)] ∧
    step (Event.requestDelivery p) s = requestDelivery p s ∧
    step (Event.viewOnMap p) s = viewOnMap p s ∧
    requestDelivery "XYZ999" s =
      (s, [⟨"https://dps-parking/requestDelivery", "POST",
            [("Content-Type", "application/json")], "\x7b\"plate\":\"XYZ999\"\x7d"⟩]) := by
  refine ⟨?_, ?_, ?_, ?_, rfl, rfl, ?_⟩
  · unfold requestDelivery
    rw [post_eq, JSONstringify_plate]
    rfl
  · unfold viewOnMap
    rw [post_eq, JSONstringify_plate]
    rfl
  · simp [requestDelivery, post, readSingleMember_plate]
  · simp [viewOnMap, post, readSingleMember_plate]
  · unfold requestDelivery
    have : post "requestDelivery" (JSONstringify [("plate", "XYZ999")]) =
        ⟨"https://dps-parking/requestDelivery", "POST",
            [("Content-Type", "application/json")], "\x7b\"plate\":\"XYZ999\"\x7d"⟩ := by
      decide
    rw [this]

/-! ## The invariant -/

theorem renderVehicles_rendered (s : State) :
    (renderVehicles s).dom.vehicleList = (renderVehicles (renderVehicles s)).dom.vehicleList :=
  (renderVehicles_idempotent_list s).symm

theorem closeMenu_isOpen (s : State) : (closeMenu s).1.isOpen = false := rfl

theorem inSync_openMenu (vd : Option (List Vehicle)) (st : Option Stats) (s : State) :
    inSync (openMenu vd st s).1 :=
  fun _ => openMenu_rendered vd st s

theorem inSync_closeMenu (s : State) : inSync (closeMenu s).1 := by
  intro h
  rw [closeMenu_isOpen] at h
  exact absurd h (by decide)

theorem inSync_updateVehicles (vd : Option (List Vehicle)) (s : State) :
    inSync (updateVehicles vd s).1 := by
  unfold updateVehicles
  by_cases ho : s.isOpen = true
  · simp only [ho, if_true]
    intro _
    exact renderVehicles_rendered _
  · have hf : s.isOpen = false := by simpa using ho
    simp only [hf]
    intro h
    exact absurd h (by simp [hf])

theorem inSync_step (e : Event) (s : State) (h : inSync s) : inSync (step e s).1 := by
  cases e with
  | message data =>
    simp only [step, onMessage]
    split
    · exact inSync_openMenu _ _ _
    · split
      · exact inSync_closeMenu _
      · split
        · exact inSync_updateVehicles _ _
        · exact h
  | keydown key =>
    simp only [step, onKeydown]
    split
    · exact inSync_closeMenu _
    · exact h
  | requestDelivery plate => exact h
  | viewOnMap plate => exact h

theorem inSync_run (es : List Event) (s : State) (h : inSync s) : inSync (run es s).1 := by
  induction es generalizing s with
  | nil => exact h
  | cons e rest ih => exact ih (step e s).1 (inSync_step e s h)

theorem inSync_initialState (classes : List String) (parkedCount vipStatus : String) :
    inSync (initialState classes parkedCount vipStatus) := by
  intro h
  exact absurd h (by simp [initialState])

/-- C2: in every state reached from the initial state (panel closed, nothing stored, no
child in `#vehicle-list`) by any sequence of messages, key presses and plate actions, if
`isOpen` is true then the children of `#vehicle-list` are the render of the stored list:
what `renderVehicles` would produce now, that is the placeholder row for an empty stored
list and one row per stored vehicle otherwise. -/
theorem reachable_open_state_in_sync (classes : List String) (parkedCount vipStatus : String)
    (es : List Event)
    (h : (run es (initialState classes parkedCount vipStatus)).1.isOpen = true) :
    (run es (initialState classes parkedCount vipStatus)).1.dom.vehicleList =
      (renderVehicles (run es (initialState classes parkedCount vipStatus)).1).dom.vehicleList ∧
    (run es (initialState classes parkedCount vipStatus)).1.dom.vehicleList =
      (if (run es (initialState classes parkedCount vipStatus)).1.vehicles = []
        then [placeholderItem]
        else (run es (initialState classes parkedCount vipStatus)).1.vehicles.map vehicleItem) := by
  have hs := inSync_run es _ (inSync_initialState classes parkedCount vipStatus) h
  refine ⟨hs, ?_⟩
  rw [hs]
  by_cases hv : (run es (initialState classes parkedCount vipStatus)).1.vehicles = []
  · rw [if_pos hv, renderVehicles_list_nil _ hv]
  · rw [if_neg hv, renderVehicles_list_map _ hv]

/-- Witness of C2: open on one vehicle, update to two, a click on a row button, then a
key that is not Escape; the panel is open and shows the two rows. -/
theorem reachable_open_state_in_sync_witness :
    (run [Event.message ⟨"open", some [⟨"ABC123", none, none⟩], none⟩,
          Event.message ⟨"update", some [⟨"ABC123", none, none⟩, ⟨"XYZ999", none, none⟩], none⟩,
          Event.requestDelivery "ABC123",
          Event.keydown "a"] (initialState ["hidden"] "0/0" "No")).1.dom.vehicleList =
      [vehicleItem ⟨"ABC123", none, none⟩, vehicleItem ⟨"XYZ999", none, none⟩] :=
  (reachable_open_state_in_sync ["hidden"] "0/0" "No"
    [Event.message ⟨"open", some [⟨"ABC123", none, none⟩], none⟩,
     Event.message ⟨"update", some [⟨"ABC123", none, none⟩, ⟨"XYZ999", none, none⟩], none⟩,
     Event.requestDelivery "ABC123",
     Event.keydown "a"] (by decide)).2

end DpsParking
